import Mathlib

/-!
Verification of the live-quote subscription / broadcast layer of
`openbb-financialdatasets-backend` (`src/main.py`).

The operative code is the second definition of `websocket_handler`
(src/main.py:1024-1116) together with the endpoints
`stock_websocket_endpoint` (1003-1022) and `crypto_websocket_endpoint`
(557-572), and the first (shadowed) definition of `websocket_handler`
(574-644).  Inbound JSON values, the per-connection registries, the inner
`consumer_handler` (intake) and `producer_handler` (broadcast scheduler)
are embedded as pure Lean functions below; the network (`requests.get`,
`response.json()`) is an oracle argument, and the Python standard-library
calls (`str.strip`, `str.split`, `str.replace`, `datetime.fromisoformat`,
`datetime.strftime`, `asyncio.wait`) are modelled by explicit Lean
definitions noted at their declaration.
-/

/-- A JSON value as produced by `websocket.iter_json()` / `response.json()`.
Numbers are modelled as integers (no claim computes with numeric values;
they are only carried around and compared for equality). An object is its
ordered field list, as in a Python `dict` (insertion order, unique keys). -/
inductive Json where
  | null : Json
  | bool : Bool → Json
  | num : Int → Json
  | str : String → Json
  | arr : List Json → Json
  | obj : List (String × Json) → Json

/-- Python truthiness (`if tickers := ...`, `if not snapshot`):
`None`, `False`, `0`, `""`, `[]`, `{}` are falsy, everything else truthy. -/
def pyTruthy : Json → Bool
  | Json.null => false
  | Json.bool b => b
  | Json.num n => !(n == 0)
  | Json.str s => !(s == "")
  | Json.arr xs => !xs.isEmpty
  | Json.obj fs => !fs.isEmpty

/-- First-match lookup in an object's field list (Python `dict` keys are
unique, so first match is the match). -/
def lookupField : List (String × Json) → String → Option Json
  | [], _ => none
  | (k2, v) :: rest, k => if k2 = k then some v else lookupField rest k

/-- `d.get(k, default)` on a Python value: only dicts have `.get`; on any
other value the attribute access raises (`AttributeError`), modelled as
`Except.error`. -/
def pyGet (j : Json) (k : String) (dflt : Json) : Except Unit Json :=
  match j with
  | Json.obj fs => Except.ok ((lookupField fs k).getD dflt)
  | _ => Except.error ()

/-- Models Python `str.strip()` (src/main.py:1034,1036): drop leading and
trailing whitespace characters. -/
def pyStrip (s : String) : String :=
  String.mk (((s.toList.dropWhile Char.isWhitespace).reverse.dropWhile
    Char.isWhitespace).reverse)

/-- Models Python `s.split(",")` (src/main.py:1034): split at every comma;
`"".split(",") == [""]`. -/
def splitCommaAux : List Char → List Char → List String
  | [], acc => [String.mk acc.reverse]
  | c :: cs, acc =>
      if c = ',' then String.mk acc.reverse :: splitCommaAux cs []
      else splitCommaAux cs (c :: acc)

def splitComma (s : String) : List String := splitCommaAux s.toList []

/-- `[t.strip() for t in parts if t.strip()]` on a list of strings
(src/main.py:1034,1036): trim each entry, discard entries that trim to
empty. -/
def cleanStr (parts : List String) : List String :=
  (parts.map pyStrip).filter (fun t => !(t == ""))

/-- `[t.strip() for t in tickers if t.strip()]` when `tickers` is the JSON
array of a subscribe message (src/main.py:1036): an element that is not a
string has no `.strip`, so the comprehension raises `AttributeError`
(`none`); otherwise the trimmed non-empty entries are returned. -/
def cleanJsonList : List Json → Option (List String)
  | [] => some []
  | Json.str t :: rest =>
      (cleanJsonList rest).map
        (fun r => if pyStrip t == "" then r else pyStrip t :: r)
  | _ :: _ => none

/-- `data.get("params", {}).get("ticker")` (src/main.py:1031). The second
`.get` has no default, i.e. default `None`. `Except.error` is an
`AttributeError` escaping the expression (`data` or `data.get("params", {})`
not a dict). -/
def getTickerField (data : Json) : Except Unit Json :=
  match pyGet data "params" (Json.obj []) with
  | Except.error _ => Except.error ()
  | Except.ok p =>
    match pyGet p "ticker" Json.null with
    | Except.error _ => Except.error ()
    | Except.ok t => Except.ok t

/-- Outcome of `consumer_handler`'s loop body on one inbound message
(src/main.py:1029-1042): the message may be skipped, may replace the
subscription entry, or may raise an exception which the handler's
`except Exception` catches, ending intake. -/
inductive IntakeResult where
  | ignored : IntakeResult
  | updated : List String → IntakeResult
  | crashed : IntakeResult
deriving DecidableEq, Repr

/-- The body of `consumer_handler`'s `async for` for one message `data`
(src/main.py:1031-1042):
`if tickers := data.get("params", {}).get("ticker"):` then the
string/list/other branches; `subscribed_tickers[connection_id] =
set(tickers)` only when the cleaned list is non-empty. Any exception in the
body (AttributeError from the `.get` chain or from `.strip()` on a
non-string list element) is `crashed`. -/
def processMessage (data : Json) : IntakeResult :=
  match getTickerField data with
  | Except.error _ => IntakeResult.crashed
  | Except.ok v =>
    if pyTruthy v then
      match v with
      | Json.str s =>
          let ts := cleanStr (splitComma s)
          if ts.isEmpty then IntakeResult.ignored else IntakeResult.updated ts
      | Json.arr xs =>
          match cleanJsonList xs with
          | none => IntakeResult.crashed
          | some ts =>
              if ts.isEmpty then IntakeResult.ignored
              else IntakeResult.updated ts
      | _ => IntakeResult.ignored
    else IntakeResult.ignored

/-- One intake step over the session's registry entry
(`subscribed_tickers[connection_id]`, a Python set, modelled as a
`Finset String`): the result set, and whether intake keeps consuming
(`false` exactly when the loop body raised and `except Exception`
returned). -/
def intakeStep (tracked : Finset String) (data : Json) : Finset String × Bool :=
  match processMessage data with
  | IntakeResult.ignored => (tracked, true)
  | IntakeResult.updated ts => (ts.toFinset, true)
  | IntakeResult.crashed => (tracked, false)

/-- The subscribe message carrying a delimited-string ticker field. -/
def msgStr (s : String) : Json :=
  Json.obj [("params", Json.obj [("ticker", Json.str s)])]

/-- The subscribe message carrying an array-of-strings ticker field. -/
def msgArr (parts : List String) : Json :=
  Json.obj [("params", Json.obj [("ticker", Json.arr (parts.map Json.str))])]

/-! ## Timestamp normalization (src/main.py:1080-1089)

`snapshot['timestamp'] =
  datetime.fromisoformat(timestamp.replace('Z', '+00:00'))
          .strftime('%Y-%m-%d %H:%M:%S')`, with `ValueError` ignored. -/

/-- Models Python `str.replace('Z', '+00:00')`: every occurrence of `Z` is
replaced. -/
def replaceZ : List Char → List Char
  | [] => []
  | c :: cs =>
      if c = 'Z' then '+' :: '0' :: '0' :: ':' :: '0' :: '0' :: replaceZ cs
      else c :: replaceZ cs

/-- A parsed naive datetime (the fields `strftime` prints; the UTC offset,
if any, does not affect `%Y-%m-%d %H:%M:%S` output and is dropped after
validation). -/
structure PyDateTime where
  year : Nat
  month : Nat
  day : Nat
  hour : Nat
  minute : Nat
  second : Nat
deriving DecidableEq, Repr

def digitsVal (cs : List Char) : Nat :=
  cs.foldl (fun a c => a * 10 + (c.toNat - 48)) 0

/-- Read exactly `n` leading digits, returning their value and the rest. -/
def takeDigits (n : Nat) (cs : List Char) : Option (Nat × List Char) :=
  let ds := cs.take n
  if ds.length = n then
    if ds.all Char.isDigit then some (digitsVal ds, cs.drop n) else none
  else none

def isLeapYear (y : Nat) : Bool :=
  (y % 4 = 0 && !(y % 100 = 0)) || (y % 400 = 0)

def daysInMonth (y m : Nat) : Nat :=
  if m = 2 then (if isLeapYear y then 29 else 28)
  else if m = 4 ∨ m = 6 ∨ m = 9 ∨ m = 11 then 30
  else 31

/-- Optional trailing fractional seconds: `.fff` or `.ffffff`. -/
def parseFraction : List Char → Option (List Char)
  | '.' :: cs =>
      let ds := cs.takeWhile Char.isDigit
      if ds.length = 3 ∨ ds.length = 6 then some (cs.drop ds.length) else none
  | cs => some cs

/-- Optional trailing UTC offset `±HH:MM[:SS]`; `true` iff the remainder is
empty or a valid offset. -/
def parseOffsetTail : List Char → Bool
  | [] => true
  | c :: rest =>
      (c = '+' || c = '-') &&
      (match takeDigits 2 rest with
       | some (hh, ':' :: r2) =>
         (match takeDigits 2 r2 with
          | some (mm, r3) =>
            decide (hh ≤ 23) && decide (mm ≤ 59) &&
            (match r3 with
             | [] => true
             | ':' :: r4 =>
               (match takeDigits 2 r4 with
                | some (ss, []) => decide (ss ≤ 59)
                | _ => false)
             | _ => false)
          | none => false)
       | _ => false)

/-- The time-of-day tail `HH[:MM[:SS[.fff[fff]]]][±HH:MM[:SS]]`. -/
def parseTimeTail (cs : List Char) : Option (Nat × Nat × Nat) :=
  match takeDigits 2 cs with
  | none => none
  | some (hh, r1) =>
    if hh ≥ 24 then none
    else
      match r1 with
      | ':' :: r2 =>
        (match takeDigits 2 r2 with
         | none => none
         | some (mi, r3) =>
           if mi ≥ 60 then none
           else
             match r3 with
             | ':' :: r4 =>
               (match takeDigits 2 r4 with
                | none => none
                | some (ss, r5) =>
                  if ss ≥ 60 then none
                  else
                    match parseFraction r5 with
                    | none => none
                    | some r6 =>
                        if parseOffsetTail r6 then some (hh, mi, ss) else none)
             | r3x => if parseOffsetTail r3x then some (hh, mi, 0) else none)
      | r1x => if parseOffsetTail r1x then some (hh, 0, 0) else none

/-- Models `datetime.fromisoformat` (Python standard library, not part of
this repository) on ISO-8601 strings
`YYYY-MM-DD[<sep>HH[:MM[:SS[.fff[fff]]]][±HH:MM[:SS]]]`: `none` is a
`ValueError`. -/
def fromisoformat (s : String) : Option PyDateTime :=
  match takeDigits 4 s.toList with
  | none => none
  | some (y, r1) =>
    match r1 with
    | '-' :: r2 =>
      (match takeDigits 2 r2 with
       | none => none
       | some (mo, r3) =>
         match r3 with
         | '-' :: r4 =>
           (match takeDigits 2 r4 with
            | none => none
            | some (d, r5) =>
              if y = 0 ∨ mo = 0 ∨ mo > 12 ∨ d = 0 ∨ d > daysInMonth y mo then
                none
              else
                match r5 with
                | [] => some ⟨y, mo, d, 0, 0, 0⟩
                | _ :: r6 =>
                  match parseTimeTail r6 with
                  | none => none
                  | some (hh, mi, ss) => some ⟨y, mo, d, hh, mi, ss⟩)
         | _ => none)
    | _ => none

def pad2 (n : Nat) : String :=
  if n < 10 then "0" ++ toString n else toString n

def pad4 (n : Nat) : String :=
  if n < 10 then "000" ++ toString n
  else if n < 100 then "00" ++ toString n
  else if n < 1000 then "0" ++ toString n
  else toString n

/-- Models `datetime.strftime('%Y-%m-%d %H:%M:%S')` (Python standard
library) on the parsed components. -/
def strftimeYmdHMS (dt : PyDateTime) : String :=
  pad4 dt.year ++ "-" ++ pad2 dt.month ++ "-" ++ pad2 dt.day ++ " " ++
  pad2 dt.hour ++ ":" ++ pad2 dt.minute ++ ":" ++ pad2 dt.second

/-- The whole normalization expression of src/main.py:1086-1087 on one
timestamp string; `none` is the caught `ValueError` (`pass`: field left
unchanged). -/
def isoNormalize (ts : String) : Option String :=
  (fromisoformat (String.mk (replaceZ ts.toList))).map strftimeYmdHMS

/-! ## Broadcast scheduler (`producer_handler`, src/main.py:1050-1105, and
the shadowed first definition, src/main.py:597-633) -/

/-- Is a Json value the given string (Python `==` between a list element
and the string `'price'`: non-strings compare unequal, no error). -/
def jsonIsStr (x : Json) (k : String) : Bool :=
  match x with
  | Json.str s => s == k
  | _ => false

/-- Needle occurs as a contiguous substring of hay (Python `in` on `str`). -/
def containsSub (needle : List Char) : List Char → Bool
  | [] => needle.isPrefixOf []
  | c :: cs => needle.isPrefixOf (c :: cs) || containsSub needle cs

/-- Python `key in container` for a string key (src/main.py:1076,1081):
dict → key membership, str → substring, list → element equality;
anything else raises `TypeError` (`Except.error`). -/
def pyContains (container : Json) (key : String) : Except Unit Bool :=
  match container with
  | Json.obj fs => Except.ok (lookupField fs key).isSome
  | Json.str s => Except.ok (containsSub key.toList s.toList)
  | Json.arr xs => Except.ok (xs.any (fun x => jsonIsStr x key))
  | _ => Except.error ()

/-- `dict[k] = v` on an ordered field list: replace in place, preserving
position (append if absent, which cannot happen when the key was just
found). -/
def setField : List (String × Json) → String → Json → List (String × Json)
  | [], k, v => [(k, v)]
  | (k2, v2) :: rest, k, v =>
      if k2 = k then (k, v) :: rest else (k2, v2) :: setField rest k v

/-- The effect of the timestamp-normalization block on an object's fields:
if `timestamp` maps to a string that `fromisoformat` accepts (after the
`Z` replacement), the field is rewritten to the `strftime` output;
otherwise (absent, non-string, or `ValueError`) the fields are unchanged. -/
def normTsFields (fs : List (String × Json)) : List (String × Json) :=
  match lookupField fs "timestamp" with
  | some (Json.str ts) =>
    (match isoNormalize ts with
     | some ts2 => setField fs "timestamp" (Json.str ts2)
     | none => fs)
  | _ => fs

/-- The `# Format timestamp` block (src/main.py:1080-1089) on the snapshot
value: `if 'timestamp' in snapshot:` (a `TypeError` on a non-indexable
container escapes the block, `Except.error`), then for a dict the
`isinstance`/`fromisoformat`/`ValueError: pass` logic; indexing a
non-dict that passed the `in` test raises. -/
def normalizeTimestamp (snapshot : Json) : Except Unit Json :=
  match pyContains snapshot "timestamp" with
  | Except.error _ => Except.error ()
  | Except.ok false => Except.ok snapshot
  | Except.ok true =>
    match snapshot with
    | Json.obj fs => Except.ok (Json.obj (normTsFields fs))
    | _ => Except.error ()

/-- Outcome of `requests.get(url)` followed (on HTTP 200) by
`response.json()`: `ok` carries the parsed body; `httpError` is a non-200
status with its body text (logged, no push); `exn` is an exception from
the transport or from JSON decoding. -/
inductive FetchResult where
  | ok : Json → FetchResult
  | httpError : Nat → String → FetchResult
  | exn : FetchResult

/-- The URL built at src/main.py:1064. -/
def fetchURL (endpoint ticker : String) : String :=
  "https://api.financialdatasets.ai/" ++ endpoint ++ "?ticker=" ++ ticker

/-- What the loop body does for one ticker: push a message, skip it, or
raise an exception that escapes the `for` loop into the
`except Exception` handler (aborting the rest of the cycle). -/
inductive SymbolStep where
  | push : Json → SymbolStep
  | skip : SymbolStep
  | raised : SymbolStep

/-- One ticker's handling in the operative (second) `producer_handler`
(src/main.py:1063-1094): fetch; non-200 → log and move on; 200 →
`snapshot = data.get('snapshot', {})` (AttributeError on a non-dict body),
`if not snapshot: continue`, `if 'price' not in snapshot: continue`,
normalize the timestamp, `send_json(snapshot)`. -/
def handleSymbolV2 (fetch : String → FetchResult) (endpoint t : String) :
    SymbolStep :=
  match fetch (fetchURL endpoint t) with
  | FetchResult.exn => SymbolStep.raised
  | FetchResult.httpError _ _ => SymbolStep.skip
  | FetchResult.ok body =>
    match pyGet body "snapshot" (Json.obj []) with
    | Except.error _ => SymbolStep.raised
    | Except.ok snapshot =>
      if !pyTruthy snapshot then SymbolStep.skip
      else
        match pyContains snapshot "price" with
        | Except.error _ => SymbolStep.raised
        | Except.ok hasPrice =>
          if !hasPrice then SymbolStep.skip
          else
            match normalizeTimestamp snapshot with
            | Except.error _ => SymbolStep.raised
            | Except.ok snap2 => SymbolStep.push snap2

/-- One ticker's handling in the first (shadowed) `producer_handler`
(src/main.py:604-625): same fetch and timestamp block, but no emptiness
check and no `price` guard — on any 200 the (possibly empty) snapshot is
pushed. Its endpoint is hard-coded to `crypto/prices/snapshot`. -/
def handleSymbolV1 (fetch : String → FetchResult) (t : String) : SymbolStep :=
  match fetch (fetchURL "crypto/prices/snapshot" t) with
  | FetchResult.exn => SymbolStep.raised
  | FetchResult.httpError _ _ => SymbolStep.skip
  | FetchResult.ok body =>
    match pyGet body "snapshot" (Json.obj []) with
    | Except.error _ => SymbolStep.raised
    | Except.ok snapshot =>
      match normalizeTimestamp snapshot with
      | Except.error _ => SymbolStep.raised
      | Except.ok snap2 => SymbolStep.push snap2

/-- Observable outcome of one pass of the `for ticker in current_tickers`
loop: the URLs requested (in order), the messages pushed (tagged with the
ticker they were fetched for, in order), and whether an exception escaped
the loop (`except Exception`: the remaining tickers are abandoned, the
producer sleeps 1s and the `while` loop continues with a fresh cycle). -/
structure CycleResult where
  fetched : List String
  pushes : List (String × Json)
  aborted : Bool

/-- The `for` loop over the snapshot list, generic in the per-ticker url
and handler. -/
def runCycleWith (url : String → String) (handle : String → SymbolStep) :
    List String → CycleResult
  | [] => ⟨[], [], false⟩
  | t :: rest =>
    match handle t with
    | SymbolStep.raised => ⟨[url t], [], true⟩
    | SymbolStep.push m =>
        let r := runCycleWith url handle rest
        ⟨url t :: r.fetched, (t, m) :: r.pushes, r.aborted⟩
    | SymbolStep.skip =>
        let r := runCycleWith url handle rest
        ⟨url t :: r.fetched, r.pushes, r.aborted⟩

/-- One cycle of the operative scheduler over a snapshot list, for a given
upstream endpoint path. -/
def runCycleV2 (endpoint : String) (snap : List String)
    (fetch : String → FetchResult) : CycleResult :=
  runCycleWith (fetchURL endpoint) (handleSymbolV2 fetch endpoint) snap

/-- One iteration of the producer's `while` loop, classified. -/
inductive ProducerIter where
  | exit : ProducerIter
  | idle : ProducerIter
  | errored : ProducerIter
  | ran : CycleResult → ProducerIter

/-- One iteration of the operative (second) `producer_handler`'s `while`
loop (src/main.py:1054-1105): exit when the channel is disconnected;
`subscribed_tickers[connection_id]` missing raises `KeyError`, caught by
`except Exception` (sleep 1s, continue) — `errored`; an empty snapshot
sleeps 1s and re-checks without any fetch — `idle`; otherwise the `for`
loop runs. -/
def producerIterV2 (disconnected : Bool) (entry : Option (List String))
    (fetch : String → FetchResult) (endpoint : String) : ProducerIter :=
  if disconnected then ProducerIter.exit
  else
    match entry with
    | none => ProducerIter.errored
    | some ticks =>
      if ticks.isEmpty then ProducerIter.idle
      else ProducerIter.ran (runCycleV2 endpoint ticks fetch)

/-- One iteration of the first (shadowed) `producer_handler`'s `while` loop
(src/main.py:600-633): no emptiness check — an empty snapshot still runs
the (empty) `for` loop and only sleeps 0.1s. -/
def producerIterV1 (disconnected : Bool) (entry : Option (List String))
    (fetch : String → FetchResult) : ProducerIter :=
  if disconnected then ProducerIter.exit
  else
    match entry with
    | none => ProducerIter.errored
    | some ticks =>
        ProducerIter.ran
          (runCycleWith (fetchURL "crypto/prices/snapshot")
            (handleSymbolV1 fetch) ticks)

/-- The producer's `while` loop unrolled over a list of per-iteration
environments (channel state and registry entry, which intake mutates
concurrently): iterations run until the loop condition observes a
disconnect. -/
def producerRunV2 :
    List (Bool × Option (List String)) → (String → FetchResult) → String →
      List ProducerIter
  | [], _, _ => []
  | (d, entry) :: rest, fetch, ep =>
    match producerIterV2 d entry fetch ep with
    | ProducerIter.exit => [ProducerIter.exit]
    | it => it :: producerRunV2 rest fetch ep

/-- Upstream URLs requested during one iteration. -/
def iterFetched : ProducerIter → List String
  | ProducerIter.ran r => r.fetched
  | _ => []

/-- `endpoint = "crypto/prices/snapshot" if data_type == "crypto" else
"prices/snapshot"` (src/main.py:1052). -/
def endpointFor (dataType : String) : String :=
  if dataType = "crypto" then "crypto/prices/snapshot" else "prices/snapshot"

/-- At import time Python rebinds the module-level name
`websocket_handler` to the second definition (src/main.py:1024); every
call made after import — both endpoints call it at runtime — resolves to
the second definition. -/
def websocket_handler_producerIter := producerIterV2

/-- `crypto_websocket_endpoint` (src/main.py:557-566) calls
`websocket_handler(websocket, connection_id)`, so `data_type` takes its
default value `"crypto"`. -/
def crypto_ws_producerIter (d : Bool) (entry : Option (List String))
    (fetch : String → FetchResult) : ProducerIter :=
  websocket_handler_producerIter d entry fetch (endpointFor "crypto")

/-- `stock_websocket_endpoint` (src/main.py:1003-1014) calls
`websocket_handler(websocket, connection_id, "stock")`. -/
def stock_ws_producerIter (d : Bool) (entry : Option (List String))
    (fetch : String → FetchResult) : ProducerIter :=
  websocket_handler_producerIter d entry fetch (endpointFor "stock")

/-! ## Session lifecycle and teardown (src/main.py:1003-1022, 1107-1116) -/

/-- The exceptions that matter to the endpoint's `try`/`except` ladder. -/
inductive PyExn where
  | wsDisconnect : PyExn
  | other : PyExn
deriving DecidableEq

/-- How the inbound stream seen by `consumer_handler`'s
`async for data in websocket.iter_json()` ends after the listed messages:
the peer disconnects (`WebSocketDisconnect` raised by the iterator), the
iterator ends normally, or some other exception is raised. -/
inductive StreamEnd where
  | disconnect : StreamEnd
  | exhausted : StreamEnd
  | otherError : StreamEnd
deriving DecidableEq

/-- The whole of `consumer_handler` (src/main.py:1027-1048) on a session
whose registry entry starts at `tracked`: each message is processed in
order; a message whose body raises ends the loop and is caught by
`except Exception` (`return`); when the stream itself ends,
`except WebSocketDisconnect: return` and `except Exception: return` both
return normally, as does falling off the loop.  The result is the final
registry entry and what `consumer_handler` raises to its caller — by
construction `Except.ok ()` on every path: `consumer_handler` never lets
an exception escape. -/
def consumer_run (tracked : Finset String) :
    List Json → StreamEnd → Finset String × Except PyExn Unit
  | [], _ => (tracked, Except.ok ())
  | m :: rest, se =>
    match processMessage m with
    | IntakeResult.ignored => consumer_run tracked rest se
    | IntakeResult.updated ts => consumer_run ts.toFinset rest se
    | IntakeResult.crashed => (tracked, Except.ok ())

/-- How `producer_handler` (src/main.py:1050-1105) can end: its `while`
condition observes the disconnected channel, or `send_json` raises
`WebSocketDisconnect`, caught at src/main.py:1100-1102 (`return`). Any
other exception is caught at 1103-1105 and the loop continues, so these
are the only endings. -/
inductive ProducerEnd where
  | loopExit : ProducerEnd
  | disconnectCaught : ProducerEnd
deriving DecidableEq

/-- What `producer_handler` raises to its caller: nothing, on either
ending — both are plain returns. -/
def producer_result : ProducerEnd → Except PyExn Unit
  | ProducerEnd.loopExit => Except.ok ()
  | ProducerEnd.disconnectCaught => Except.ok ()

/-- What `websocket_handler` (src/main.py:1107-1116) raises to the
endpoint, given what its two tasks raised. Models
`asyncio.wait(..., return_when=FIRST_COMPLETED)` (Python standard
library): `wait` returns the `(done, pending)` sets and never re-raises a
task's exception (it stays stored in the Task object); the handler then
calls `task.cancel()` on the pending task — which only requests
cancellation — and returns. So `websocket_handler` returns normally
whatever the task results were. -/
def websocket_handler_result (_consumerRes _producerRes : Except PyExn Unit) :
    Except PyExn Unit :=
  Except.ok ()

/-- How `stock_websocket_endpoint` leaves the process. -/
inductive EndpointExit where
  | normal : EndpointExit
  | raisedHTTP : EndpointExit
deriving DecidableEq

/-- The `try`/`except` ladder of `stock_websocket_endpoint`
(src/main.py:1013-1022) around `await websocket_handler(...)`:
`hasEntries` is whether the connection's `active_connections` and
`subscribed_tickers` entries (created at 1008-1009) are still present
afterwards. They are deleted only in the `except WebSocketDisconnect`
branch (1015-1018); a normal return keeps them, and any other exception
closes the channel with code 1011 and re-raises as `HTTPException`,
also keeping them. (`crypto_websocket_endpoint`, src/main.py:557-572,
has the identical ladder.) -/
def stock_endpoint_after_handler (hasEntries : Bool)
    (handlerResult : Except PyExn Unit) : Bool × EndpointExit :=
  match handlerResult with
  | Except.ok _ => (hasEntries, EndpointExit.normal)
  | Except.error PyExn.wsDisconnect => (false, EndpointExit.normal)
  | Except.error _ => (hasEntries, EndpointExit.raisedHTTP)

/-! ## Concrete fetch oracles used by witness and counterexample
theorems -/

/-- A fetch oracle for witnesses: every URL answers 200 with a well-formed
quote. -/
def fetchAllGood : String → FetchResult := fun _ =>
  FetchResult.ok (Json.obj [("snapshot", Json.obj [("price", Json.num 5)])])

/-- A fetch oracle for witnesses: the URL for ticker B answers 500,
everything else answers 200 with a well-formed quote. -/
def fetchBFails : String → FetchResult := fun url =>
  if url = fetchURL "prices/snapshot" "B" then
    FetchResult.httpError 500 "Internal Server Error"
  else FetchResult.ok (Json.obj [("snapshot", Json.obj [("price", Json.num 5)])])

/-- A fetch oracle for counterexamples: the URL for ticker B raises a
transport exception, everything else answers 200 with a well-formed
quote. -/
def fetchBRaises : String → FetchResult := fun url =>
  if url = fetchURL "prices/snapshot" "B" then FetchResult.exn
  else FetchResult.ok (Json.obj [("snapshot", Json.obj [("price", Json.num 5)])])

/-- A fetch oracle for witnesses: 200 with a quote carrying a price and an
ISO-8601 `Z`-suffixed timestamp. -/
def fetchWithTs : String → FetchResult := fun _ =>
  FetchResult.ok (Json.obj [("snapshot", Json.obj
    [("price", Json.num 101), ("timestamp", Json.str "2024-01-02T03:04:05Z")])])

/-- A fetch oracle for C10: 200 with an EMPTY snapshot object. -/
def fetchEmptySnap : String → FetchResult := fun _ =>
  FetchResult.ok (Json.obj [("snapshot", Json.obj [])])

/-! ## Helper lemmas -/

example : cleanStr ["AAPL", " MSFT", " ", ""] = ["AAPL", "MSFT"] := by decide

example : intakeStep ∅ (msgStr "AAPL, MSFT") =
    ({"AAPL", "MSFT"}, true) := by decide

example : processMessage (msgArr ["", " "]) = IntakeResult.ignored := by decide

example :
    processMessage
      (Json.obj [("params", Json.obj [("ticker", Json.arr [Json.num 1])])])
      = IntakeResult.crashed := by decide

example : intakeStep {"X"} (msgArr ["AAPL", "MSFT", "AAPL"]) =
    ({"AAPL", "MSFT"}, true) := by decide

example : isoNormalize "2024-01-02T03:04:05Z" = some "2024-01-02 03:04:05" := by
  decide

example : isoNormalize "2024-06-30" = some "2024-06-30 00:00:00" := by decide

example : isoNormalize "not-a-date" = none := by decide


theorem cleanJsonList_map_str (parts : List String) :
    cleanJsonList (parts.map Json.str) = some (cleanStr parts) := by
  induction parts with
  | nil => rfl
  | cons t rest ih =>
      simp only [List.map_cons, cleanJsonList, ih, Option.map_some]
      simp only [cleanStr, List.map_cons, List.filter_cons]
      cases h : pyStrip t == "" with
      | true => simp [h]
      | false => simp [h]

theorem runCycleWith_pushes_fst_sublist (url : String → String)
    (handle : String → SymbolStep) (snap : List String) :
    ((runCycleWith url handle snap).pushes.map Prod.fst).Sublist snap := by
  induction snap with
  | nil => simp [runCycleWith]
  | cons t rest ih =>
      cases h : handle t with
      | raised => simp [runCycleWith, h]
      | push m =>
          simpa [runCycleWith, h] using List.Sublist.cons₂ t ih
      | skip =>
          simpa [runCycleWith, h] using List.Sublist.cons t ih

theorem runCycleWith_pushes_all_push (url : String → String)
    (handle : String → SymbolStep) (snap : List String)
    (h : ∀ t ∈ snap, ∃ m, handle t = SymbolStep.push m) :
    (runCycleWith url handle snap).pushes.map Prod.fst = snap := by
  induction snap with
  | nil => simp [runCycleWith]
  | cons t rest ih =>
      obtain ⟨m, hm⟩ := h t (by simp)
      have hrest := ih (fun u hu => h u (by simp [hu]))
      simp [runCycleWith, hm, hrest]

theorem runCycleWith_raise_at (url : String → String)
    (handle : String → SymbolStep) (pre post : List String) (t : String)
    (hpre : ∀ u ∈ pre, handle u ≠ SymbolStep.raised)
    (ht : handle t = SymbolStep.raised) :
    runCycleWith url handle (pre ++ t :: post) =
      ⟨pre.map url ++ [url t], (runCycleWith url handle pre).pushes, true⟩ := by
  induction pre with
  | nil => simp [runCycleWith, ht]
  | cons u us ih =>
      have hu : handle u ≠ SymbolStep.raised := hpre u (by simp)
      have hus : ∀ v ∈ us, handle v ≠ SymbolStep.raised :=
        fun v hv => hpre v (by simp [hv])
      cases hh : handle u with
      | raised => exact absurd hh hu
      | push m => simp [runCycleWith, hh, ih hus]
      | skip => simp [runCycleWith, hh, ih hus]

theorem normalizeTimestamp_obj (fs : List (String × Json)) :
    normalizeTimestamp (Json.obj fs) = Except.ok (Json.obj (normTsFields fs)) := by
  cases h : lookupField fs "timestamp" with
  | none => simp [normalizeTimestamp, pyContains, normTsFields, h]
  | some v => simp [normalizeTimestamp, pyContains, normTsFields, h]

theorem getTickerField_msgArr (parts : List String) :
    getTickerField (msgArr parts) = Except.ok (Json.arr (parts.map Json.str)) :=
  rfl

theorem getTickerField_msgStr (s : String) :
    getTickerField (msgStr s) = Except.ok (Json.str s) :=
  rfl

theorem processMessage_msgArr (parts : List String)
    (h : cleanStr parts ≠ []) :
    processMessage (msgArr parts) = IntakeResult.updated (cleanStr parts) := by
  cases parts with
  | nil => exact absurd rfl h
  | cons a rest =>
      have hcl := cleanJsonList_map_str (a :: rest)
      simp only [List.map_cons] at hcl
      have hne : (cleanStr (a :: rest)).isEmpty = false := by
        cases he : cleanStr (a :: rest) with
        | nil => exact absurd he h
        | cons x xs => rfl
      simp [processMessage, getTickerField_msgArr, pyTruthy, hcl, hne, h]

theorem processMessage_msgStr (s : String)
    (h : cleanStr (splitComma s) ≠ []) :
    processMessage (msgStr s) = IntakeResult.updated (cleanStr (splitComma s)) := by
  have hs : (s == "") = false := by
    cases he : s == "" with
    | false => rfl
    | true =>
        have : s = "" := by exact eq_of_beq he
        subst this
        exact absurd rfl h
  have hne : (cleanStr (splitComma s)).isEmpty = false := by
    cases he : cleanStr (splitComma s) with
    | nil => exact absurd he h
    | cons x xs => rfl
  simp [processMessage, getTickerField_msgStr, pyTruthy, hs, hne]

theorem consumer_run_ok (tracked : Finset String) (msgs : List Json)
    (se : StreamEnd) :
    (consumer_run tracked msgs se).2 = Except.ok () := by
  induction msgs generalizing tracked with
  | nil => rfl
  | cons m rest ih =>
      cases h : processMessage m <;> simp [consumer_run, h, ih]

/-! ## Claims -/

/-- C1: for every valid subscribe message — a `params.ticker` field that is
either a comma-delimited string or a list of strings — whose entries,
trimmed of whitespace with empty entries discarded, are non-empty, the
session's tracked set after intake processes it equals exactly the set of
those trimmed entries; the same set results whether the input was the
delimited string or the equivalent array of its comma-separated parts; the
previous entry is replaced wholesale (the result does not depend on
`prev`), and processing the same message twice yields the same set as
processing it once. -/
theorem C1_subscribe_replaces_wholesale (prev : Finset String)
    (parts : List String) (h : cleanStr parts ≠ []) :
    intakeStep prev (msgArr parts) = ((cleanStr parts).toFinset, true) ∧
    (∀ s, splitComma s = parts →
        intakeStep prev (msgStr s) = ((cleanStr parts).toFinset, true)) ∧
    intakeStep (intakeStep prev (msgArr parts)).1 (msgArr parts) =
      intakeStep prev (msgArr parts) := by
  have harr : ∀ q : Finset String,
      intakeStep q (msgArr parts) = ((cleanStr parts).toFinset, true) := by
    intro q
    simp [intakeStep, processMessage_msgArr parts h]
  refine ⟨harr prev, ?_, ?_⟩
  · intro s hsp
    have := processMessage_msgStr s (by rw [hsp]; exact h)
    rw [hsp] at this
    simp [intakeStep, this]
  · rw [harr prev]
    exact harr _

/-- C1 witness: a concrete subscribe for `"AAPL, MSFT"` (string form and
array form) replaces a non-empty previous set with `{AAPL, MSFT}`, and is
idempotent. -/
theorem C1_subscribe_replaces_wholesale_witness :
    cleanStr ["AAPL", " MSFT"] ≠ [] ∧
    (intakeStep {"TSLA"} (msgArr ["AAPL", " MSFT"]) =
        ({"AAPL", "MSFT"}, true) ∧
      (∀ s, splitComma s = ["AAPL", " MSFT"] →
        intakeStep {"TSLA"} (msgStr s) = ({"AAPL", "MSFT"}, true)) ∧
      intakeStep (intakeStep {"TSLA"} (msgArr ["AAPL", " MSFT"])).1
          (msgArr ["AAPL", " MSFT"]) =
        intakeStep {"TSLA"} (msgArr ["AAPL", " MSFT"])) := by
  have hmain := C1_subscribe_replaces_wholesale {"TSLA"} ["AAPL", " MSFT"]
    (by decide)
  have hset : ((cleanStr ["AAPL", " MSFT"]).toFinset : Finset String) =
      {"AAPL", "MSFT"} := by decide
  refine ⟨by decide, ?_, ?_, ?_⟩
  · rw [← hset]; exact hmain.1
  · intro s hs; rw [← hset]; exact hmain.2.1 s hs
  · exact hmain.2.2

/-- C9: a subscribe message whose ticker entries all trim to empty (only
empty or whitespace symbols, in either the delimited-string or the array
form) leaves the session's previously tracked set exactly unchanged, and
intake continues. -/
theorem C9_blank_symbols_leave_set_unchanged (tracked : Finset String)
    (s : String) (hs : cleanStr (splitComma s) = [])
    (parts : List String) (hp : cleanStr parts = []) :
    intakeStep tracked (msgStr s) = (tracked, true) ∧
    intakeStep tracked (msgArr parts) = (tracked, true) := by
  constructor
  · cases he : s == "" with
    | true => simp [intakeStep, processMessage, getTickerField_msgStr, pyTruthy, he]
    | false =>
        simp [intakeStep, processMessage, getTickerField_msgStr, pyTruthy, he, hs]
  · cases parts with
    | nil => simp [intakeStep, processMessage, getTickerField_msgArr, pyTruthy]
    | cons a rest =>
        have hcl := cleanJsonList_map_str (a :: rest)
        simp only [List.map_cons] at hcl
        simp [intakeStep, processMessage, getTickerField_msgArr, pyTruthy,
          hcl, hp]

/-- C9 witness: the message `{"params": {"ticker": " , "}}` (and the array
form `["", " "]`) leaves the tracked set `{AAPL}` untouched. -/
theorem C9_blank_symbols_leave_set_unchanged_witness :
    cleanStr (splitComma " , ") = [] ∧ cleanStr ["", " "] = [] ∧
    (intakeStep {"AAPL"} (msgStr " , ") = ({"AAPL"}, true) ∧
      intakeStep {"AAPL"} (msgArr ["", " "]) = ({"AAPL"}, true)) :=
  ⟨by decide, by decide,
    C9_blank_symbols_leave_set_unchanged {"AAPL"} " , " (by decide)
      ["", " "] (by decide)⟩

/-- C4 counterexample: the claim says every malformed message — including a
ticker list containing non-string entries — is ignored and intake
continues.  On `{"params": {"ticker": ["AAPL", 1]}}` the comprehension
`[t.strip() for t in tickers if t.strip()]` raises `AttributeError` on the
integer entry; `except Exception` catches it and `consumer_handler`
returns, so intake does NOT continue (second component `false`): the
session terminates. -/
theorem C4_counterexample_nonstring_entry_ends_intake :
    intakeStep (∅ : Finset String)
      (Json.obj [("params", Json.obj
        [("ticker", Json.arr [Json.str "AAPL", Json.num 1])])]) =
    (∅, false) := by decide

/-- C4 (amended): a malformed message of wrong shape — the
`data.get("params", {}).get("ticker")` chain evaluates without error to a
falsy value, or to a truthy value that is neither a string nor a list —
is ignored: the tracked set is unchanged and intake continues.  A ticker
list containing a non-string entry also leaves the tracked set unchanged,
but raises inside the loop body: the exception is caught and intake
terminates (it does not continue consuming messages). -/
theorem C4_amended_malformed_messages (tracked : Finset String)
    (data v : Json) (hv : getTickerField data = Except.ok v) :
    ((pyTruthy v = false ∨
        ((∀ s, v ≠ Json.str s) ∧ ∀ xs, v ≠ Json.arr xs)) →
      intakeStep tracked data = (tracked, true)) ∧
    (∀ xs, v = Json.arr xs → cleanJsonList xs = none →
      intakeStep tracked data = (tracked, false)) := by
  constructor
  · intro hcase
    rcases hcase with hfalsy | ⟨hnstr, hnarr⟩
    · simp [intakeStep, processMessage, hv, hfalsy]
    · cases v with
      | str s => exact absurd rfl (hnstr s)
      | arr xs => exact absurd rfl (hnarr xs)
      | null => simp [intakeStep, processMessage, hv, pyTruthy]
      | bool b => cases b <;> simp [intakeStep, processMessage, hv, pyTruthy]
      | num n =>
          by_cases hn : n = 0 <;>
            simp [intakeStep, processMessage, hv, pyTruthy, hn]
      | obj fs =>
          cases fs <;> simp [intakeStep, processMessage, hv, pyTruthy]
  · intro xs hxs hnone
    subst hxs
    have hxe : xs ≠ [] := by
      intro he; subst he; simp [cleanJsonList] at hnone
    have hxb : xs.isEmpty = false := by
      cases xs with
      | nil => exact absurd rfl hxe
      | cons a l => rfl
    simp [intakeStep, processMessage, hv, pyTruthy, hxb, hnone]

/-- C4 amended witness: `{"params": {"ticker": 7}}` (truthy, neither
string nor list) is ignored with the set `{A}` unchanged and intake
continuing. -/
theorem C4_amended_malformed_messages_witness :
    getTickerField (Json.obj [("params", Json.obj [("ticker", Json.num 7)])])
        = Except.ok (Json.num 7) ∧
    intakeStep {"A"} (Json.obj [("params", Json.obj [("ticker", Json.num 7)])])
        = ({"A"}, true) :=
  ⟨rfl,
    (C4_amended_malformed_messages {"A"}
        (Json.obj [("params", Json.obj [("ticker", Json.num 7)])])
        (Json.num 7) rfl).1
      (Or.inr ⟨fun _ h => Json.noConfusion h, fun _ h => Json.noConfusion h⟩)⟩

/-- C2: in one scheduler cycle over a duplicate-free snapshot of the
subscription set, at most one push is emitted per symbol (each symbol
appears at most once among the pushes); the pushed symbols always follow
the iteration order of the snapshot (they form a sublist of it), and when
every symbol's fetch succeeds with a pushable quote the pushes are exactly
the snapshot's symbols in snapshot order. -/
theorem C2_cycle_push_order (ep : String) (snap : List String)
    (fetch : String → FetchResult) (hnd : snap.Nodup) :
    (∀ t, ((runCycleV2 ep snap fetch).pushes.map Prod.fst).count t ≤ 1) ∧
    ((runCycleV2 ep snap fetch).pushes.map Prod.fst).Sublist snap ∧
    ((∀ t ∈ snap, ∃ m, handleSymbolV2 fetch ep t = SymbolStep.push m) →
      (runCycleV2 ep snap fetch).pushes.map Prod.fst = snap) := by
  refine ⟨?_, ?_, ?_⟩
  · intro t
    have hsub := runCycleWith_pushes_fst_sublist (fetchURL ep)
      (handleSymbolV2 fetch ep) snap
    exact le_trans (hsub.count_le t) (List.nodup_iff_count_le_one.mp hnd t)
  · exact runCycleWith_pushes_fst_sublist _ _ snap
  · exact runCycleWith_pushes_all_push _ _ snap

/-- C2 witness: over the snapshot `[A, B, C]` with every fetch succeeding,
the cycle pushes exactly for A, B, C in that order. -/
theorem C2_cycle_push_order_witness :
    (["A", "B", "C"] : List String).Nodup ∧
    (runCycleV2 "prices/snapshot" ["A", "B", "C"] fetchAllGood).pushes.map
        Prod.fst = ["A", "B", "C"] :=
  ⟨by decide,
    (C2_cycle_push_order "prices/snapshot" ["A", "B", "C"] fetchAllGood
        (by decide)).2.2
      (fun t ht => ⟨Json.obj [("price", Json.num 5)], rfl⟩)⟩

/-- C8: in one cycle over snapshot `[A, B, C]`, when the fetch for B
returns a non-2xx status while A and C yield pushable quotes, the pushes
for A and C are still emitted (in order) and none for B; each of the three
URLs is requested exactly once — no retry of B within the cycle. -/
theorem C8_non2xx_symbol_skipped (ep A B C : String)
    (fetch : String → FetchResult) (mA mC : Json) (code : Nat) (body : String)
    (hA : handleSymbolV2 fetch ep A = SymbolStep.push mA)
    (hB : fetch (fetchURL ep B) = FetchResult.httpError code body)
    (hC : handleSymbolV2 fetch ep C = SymbolStep.push mC) :
    (runCycleV2 ep [A, B, C] fetch).pushes = [(A, mA), (C, mC)] ∧
    (runCycleV2 ep [A, B, C] fetch).fetched =
      [fetchURL ep A, fetchURL ep B, fetchURL ep C] ∧
    (runCycleV2 ep [A, B, C] fetch).aborted = false := by
  have hB2 : handleSymbolV2 fetch ep B = SymbolStep.skip := by
    simp [handleSymbolV2, hB]
  refine ⟨?_, ?_, ?_⟩ <;>
    simp [runCycleV2, runCycleWith, hA, hB2, hC]

/-- C8 witness: concrete cycle over `[A, B, C]` with B answering 500. -/
theorem C8_non2xx_symbol_skipped_witness :
    (runCycleV2 "prices/snapshot" ["A", "B", "C"] fetchBFails).pushes =
      [("A", Json.obj [("price", Json.num 5)]),
       ("C", Json.obj [("price", Json.num 5)])] ∧
    (runCycleV2 "prices/snapshot" ["A", "B", "C"] fetchBFails).fetched =
      [fetchURL "prices/snapshot" "A", fetchURL "prices/snapshot" "B",
       fetchURL "prices/snapshot" "C"] ∧
    (runCycleV2 "prices/snapshot" ["A", "B", "C"] fetchBFails).aborted = false :=
  C8_non2xx_symbol_skipped "prices/snapshot" "A" "B" "C" fetchBFails
    (Json.obj [("price", Json.num 5)]) (Json.obj [("price", Json.num 5)])
    500 "Internal Server Error" rfl rfl rfl

/-- C5 counterexample: the claim says that after a transport exception on
one symbol the scheduler continues with the remaining symbols of the same
cycle.  In the cycle over `[A, B, C]` with B's fetch raising, only A's and
B's URLs are ever requested — C's URL is never requested and C gets no
push in that cycle: the exception escapes the `for` loop into
`except Exception`, abandoning the rest of the cycle. -/
theorem C5_counterexample_rest_of_cycle_abandoned :
    (runCycleV2 "prices/snapshot" ["A", "B", "C"] fetchBRaises).pushes =
      [("A", Json.obj [("price", Json.num 5)])] ∧
    (runCycleV2 "prices/snapshot" ["A", "B", "C"] fetchBRaises).fetched =
      [fetchURL "prices/snapshot" "A", fetchURL "prices/snapshot" "B"] ∧
    fetchURL "prices/snapshot" "C" ∉
      (runCycleV2 "prices/snapshot" ["A", "B", "C"] fetchBRaises).fetched ∧
    (runCycleV2 "prices/snapshot" ["A", "B", "C"] fetchBRaises).aborted = true :=
  ⟨rfl, rfl, by decide, rfl⟩

/-- C5 (amended): when the fetch for one symbol raises a transport/network
exception, the failure is still recovered locally — the session does not
crash and that symbol gets no push — but the remaining symbols of the same
cycle are NOT fetched: the exception aborts the cycle (`aborted = true`,
the requested URLs stop at the failing symbol, the pushes are exactly
those of the symbols before it), the producer sleeps 1s and the `while`
loop then continues with a fresh cycle. -/
theorem C5_amended_exn_aborts_cycle (ep t : String) (pre post : List String)
    (fetch : String → FetchResult) (rest : List (Bool × Option (List String)))
    (hpre : ∀ u ∈ pre, handleSymbolV2 fetch ep u ≠ SymbolStep.raised)
    (ht : fetch (fetchURL ep t) = FetchResult.exn) :
    runCycleV2 ep (pre ++ t :: post) fetch =
      ⟨pre.map (fetchURL ep) ++ [fetchURL ep t],
       (runCycleV2 ep pre fetch).pushes, true⟩ ∧
    producerRunV2 ((false, some (pre ++ t :: post)) :: rest) fetch ep =
      ProducerIter.ran (runCycleV2 ep (pre ++ t :: post) fetch) ::
        producerRunV2 rest fetch ep := by
  have htr : handleSymbolV2 fetch ep t = SymbolStep.raised := by
    simp [handleSymbolV2, ht]
  constructor
  · exact runCycleWith_raise_at _ _ pre post t hpre htr
  · have hne : (pre ++ t :: post).isEmpty = false := by
      cases pre <;> rfl
    simp [producerRunV2, producerIterV2, hne]

/-- C5 amended witness: concrete cycle `[A] ++ B :: [C]` with B raising;
the cycle's requests stop at B and the producer continues. -/
theorem C5_amended_exn_aborts_cycle_witness :
    fetchBRaises (fetchURL "prices/snapshot" "B") = FetchResult.exn ∧
    runCycleV2 "prices/snapshot" (["A"] ++ "B" :: ["C"]) fetchBRaises =
      ⟨["A"].map (fetchURL "prices/snapshot") ++ [fetchURL "prices/snapshot" "B"],
       (runCycleV2 "prices/snapshot" ["A"] fetchBRaises).pushes, true⟩ :=
  ⟨rfl,
    (C5_amended_exn_aborts_cycle "prices/snapshot" "B" ["A"] ["C"] fetchBRaises
        []
        (fun u hu hr => by
          rcases List.mem_singleton.mp hu with rfl
          exact SymbolStep.noConfusion hr)
        rfl).1⟩

/-- C6: an idle session — registry entry an empty set, or absent — never
contacts the upstream quote client: over any run of the producer's loop in
which every iteration observes an empty (or missing) entry, the list of
requested upstream URLs is empty; the single-iteration behavior on an
empty entry is `idle` (sleep and re-check, no fetch). -/
theorem C6_idle_session_no_upstream_calls
    (steps : List (Bool × Option (List String)))
    (fetch : String → FetchResult) (ep : String)
    (h : ∀ p ∈ steps, p.2 = some [] ∨ p.2 = none) :
    (producerRunV2 steps fetch ep).flatMap iterFetched = [] ∧
    producerIterV2 false (some []) fetch ep = ProducerIter.idle := by
  refine ⟨?_, rfl⟩
  induction steps with
  | nil => rfl
  | cons p rest ih =>
      obtain ⟨d, entry⟩ := p
      have hp := h (d, entry) (by simp)
      have hrest := ih (fun q hq => h q (by simp [hq]))
      rcases hp with he | he <;> subst he <;> cases d <;>
        simp [producerRunV2, producerIterV2, iterFetched, hrest]

/-- C6 witness: a three-iteration run (empty entry, missing entry, then
disconnect) requests nothing upstream. -/
theorem C6_idle_session_no_upstream_calls_witness :
    (∀ p ∈ ([(false, some []), (false, none), (true, some [])] :
        List (Bool × Option (List String))), p.2 = some [] ∨ p.2 = none) ∧
    (producerRunV2 [(false, some []), (false, none), (true, some [])]
        fetchAllGood "prices/snapshot").flatMap iterFetched = [] :=
  ⟨by decide,
    (C6_idle_session_no_upstream_calls
        [(false, some []), (false, none), (true, some [])]
        fetchAllGood "prices/snapshot" (by decide)).1⟩

/-- C7: for a symbol whose fetch returns 200 with a JSON object body whose
`snapshot` value (defaulting to `{}` when absent) is an object: if the
snapshot is non-empty and contains a `price` field, the scheduler pushes
the snapshot with its fields timestamp-normalized — and when the
`timestamp` field holds a string that parses as ISO-8601 (after replacing
`Z` with `+00:00`) it is rewritten to the `%Y-%m-%d %H:%M:%S` rendering of
the parsed datetime; if instead the snapshot is empty or lacks `price`,
the symbol is skipped with no push and the cycle continues with the next
symbol unchanged. -/
theorem C7_push_requires_price_normalizes_timestamp (ep t : String)
    (rest : List String) (fetch : String → FetchResult)
    (bodyFields fs : List (String × Json))
    (hf : fetch (fetchURL ep t) = FetchResult.ok (Json.obj bodyFields))
    (hs : (lookupField bodyFields "snapshot").getD (Json.obj []) = Json.obj fs) :
    (fs ≠ [] → (lookupField fs "price").isSome →
      handleSymbolV2 fetch ep t = SymbolStep.push (Json.obj (normTsFields fs))) ∧
    (∀ ts dt, lookupField fs "timestamp" = some (Json.str ts) →
      fromisoformat (String.mk (replaceZ ts.toList)) = some dt →
      normTsFields fs = setField fs "timestamp" (Json.str (strftimeYmdHMS dt))) ∧
    ((fs = [] ∨ lookupField fs "price" = none) →
      handleSymbolV2 fetch ep t = SymbolStep.skip ∧
      (runCycleV2 ep (t :: rest) fetch).pushes =
        (runCycleV2 ep rest fetch).pushes ∧
      (runCycleV2 ep (t :: rest) fetch).fetched =
        fetchURL ep t :: (runCycleV2 ep rest fetch).fetched ∧
      (runCycleV2 ep (t :: rest) fetch).aborted =
        (runCycleV2 ep rest fetch).aborted) := by
  refine ⟨?_, ?_, ?_⟩
  · intro hne hprice
    have hb : fs.isEmpty = false := by
      cases fs with
      | nil => exact absurd rfl hne
      | cons a l => rfl
    simp [handleSymbolV2, hf, pyGet, hs, pyTruthy, pyContains, hb, hprice,
      normalizeTimestamp_obj]
  · intro ts dt hts hiso
    simp only [String.toList] at hiso
    simp [normTsFields, hts, isoNormalize, String.toList, hiso]
  · intro hcase
    have hskip : handleSymbolV2 fetch ep t = SymbolStep.skip := by
      rcases hcase with he | he
      · subst he
        simp [handleSymbolV2, hf, pyGet, hs, pyTruthy]
      · by_cases hb : fs.isEmpty
        · simp [handleSymbolV2, hf, pyGet, hs, pyTruthy, hb]
        · simp [handleSymbolV2, hf, pyGet, hs, pyTruthy, hb, pyContains, he]
    exact ⟨hskip, by simp [runCycleV2, runCycleWith, hskip],
      by simp [runCycleV2, runCycleWith, hskip],
      by simp [runCycleV2, runCycleWith, hskip]⟩

/-- C7 witness: a quote with price 101 and timestamp
`2024-01-02T03:04:05Z` is pushed with the timestamp rewritten to
`2024-01-02 03:04:05`. -/
theorem C7_push_requires_price_normalizes_timestamp_witness :
    handleSymbolV2 fetchWithTs "prices/snapshot" "AAPL" =
      SymbolStep.push (Json.obj (normTsFields
        [("price", Json.num 101),
         ("timestamp", Json.str "2024-01-02T03:04:05Z")])) ∧
    normTsFields
        [("price", Json.num 101),
         ("timestamp", Json.str "2024-01-02T03:04:05Z")] =
      [("price", Json.num 101), ("timestamp", Json.str "2024-01-02 03:04:05")] := by
  have h := C7_push_requires_price_normalizes_timestamp "prices/snapshot"
    "AAPL" [] fetchWithTs
    [("snapshot", Json.obj [("price", Json.num 101),
      ("timestamp", Json.str "2024-01-02T03:04:05Z")])]
    [("price", Json.num 101), ("timestamp", Json.str "2024-01-02T03:04:05Z")]
    rfl rfl
  refine ⟨h.1 (List.cons_ne_nil _ _) rfl, ?_⟩
  have h2 := h.2.1 "2024-01-02T03:04:05Z" ⟨2024, 1, 2, 3, 4, 5⟩ rfl (by decide)
  exact h2

/-- C3: the claim's first half holds — a producer iteration that observes
the disconnected channel exits the loop — but its second half fails in the
code: for EVERY way the session can end (any message list, any stream
ending including a clean client disconnect observed by intake, any
producer ending), `consumer_handler` and `producer_handler` swallow their
exceptions and return normally, `websocket_handler` therefore returns
normally, and the endpoint's `except WebSocketDisconnect` branch — the
only place `active_connections[connection_id]` and
`subscribed_tickers[connection_id]` are deleted — never runs: the entries
are still present (`true`) after the session ends. -/
theorem C3_disconnect_cleanup_never_runs (msgs : List Json) (se : StreamEnd)
    (pe : ProducerEnd) (entry : Option (List String))
    (fetch : String → FetchResult) (ep : String) :
    producerIterV2 true entry fetch ep = ProducerIter.exit ∧
    (consumer_run ∅ msgs se).2 = Except.ok () ∧
    stock_endpoint_after_handler true
        (websocket_handler_result (consumer_run ∅ msgs se).2
          (producer_result pe)) =
      (true, EndpointExit.normal) :=
  ⟨rfl, consumer_run_ok ∅ msgs se, rfl⟩

/-- C10: after import the module name `websocket_handler` is bound to the
second definition, so both WebSocket endpoints execute the second
definition's body and differ only in the upstream endpoint path chosen
from `data_type` (the crypto endpoint passes no `data_type` and gets the
default `"crypto"`); in particular the empty-set idle sleep and the
`price`-field guard apply to both asset classes, while the first
definition — never invoked — lacks both: on an empty registry entry it
runs a (vacuous) cycle instead of idling, and on a 200 response with an
empty snapshot it pushes the empty object where the operative handler
pushes nothing. -/
theorem C10_second_definition_shadows_first :
    (∀ d entry fetch, crypto_ws_producerIter d entry fetch =
        producerIterV2 d entry fetch "crypto/prices/snapshot") ∧
    (∀ d entry fetch, stock_ws_producerIter d entry fetch =
        producerIterV2 d entry fetch "prices/snapshot") ∧
    (∀ fetch, crypto_ws_producerIter false (some []) fetch =
        ProducerIter.idle) ∧
    (∀ fetch, stock_ws_producerIter false (some []) fetch =
        ProducerIter.idle) ∧
    (∀ fetch, producerIterV1 false (some []) fetch =
        ProducerIter.ran ⟨[], [], false⟩) ∧
    (runCycleWith (fetchURL "crypto/prices/snapshot")
        (handleSymbolV1 fetchEmptySnap) ["X"]).pushes =
      [("X", Json.obj [])] ∧
    (runCycleV2 "crypto/prices/snapshot" ["X"] fetchEmptySnap).pushes = [] ∧
    (runCycleV2 "prices/snapshot" ["X"] fetchEmptySnap).pushes = [] :=
  ⟨fun _ _ _ => rfl, fun _ _ _ => rfl, fun _ => rfl, fun _ => rfl,
    fun _ => rfl, rfl, rfl, rfl⟩
